import Mathlib

/-!
# Verification of `aiocoap/transports/simple6.py`

A shallow embedding of the client-side UDP transport of aiocoap
(`TransportEndpointSimple6`, `_DatagramSocketpoolSimple6`, `_Connection`)
together with proofs about its behaviour.

Modelling conventions:
* Python `None` becomes `Option.none`; Python truthiness of strings and
  integers is modelled explicitly (`strTruthy`, `natOr`).
* A Python exception that aborts a method is modelled either by an
  `Except` result (`PyError`) or, for event handlers whose only observable
  effect is whether a callback fired, by an `Option` that is `none` when the
  handler died before invoking any callback.
* Python object identity is modelled by an `id` field assigned freshly at
  construction time.
* asyncio coroutines are modelled as pure state-passing functions; the event
  loop's guarantee that `connection_made` runs before
  `create_datagram_endpoint` returns is built into `connect`.
-/

/-- `COAP_PORT` from the aiocoap package root.
Modelled from the spec: the protocol's well-known default port, 5683
(the constant itself is imported from aiocoap core, which is outside the
transport module). -/
def COAP_PORT : Nat := 5683

/-- `hostportjoin` from `aiocoap.util`.
Modelled from the spec: formats an address as `"host"` when no port is
given and as `"host:port"` otherwise (the helper lives in `aiocoap.util`,
outside the transport module). -/
def hostportjoin (host : String) (port : Option Nat) : String :=
  match port with
  | none => host
  | some p => host ++ ":" ++ toString p

/-- Python truthiness of an optional string (`None` and `""` are falsy),
as used by `elif request.opt.uri_host:`. -/
def strTruthy : Option String → Bool
  | none => false
  | some s => !s.data.isEmpty

/-- Split a character list at every occurrence of the separator `sep`
(the pieces do not contain `sep`); the list-level counterpart of Python's
`str.split`. -/
def splitOnChar (sep : Char) : List Char → List (List Char)
  | [] => [[]]
  | x :: xs =>
      if x = sep then [] :: splitOnChar sep xs
      else
        match splitOnChar sep xs with
        | h :: t => (x :: h) :: t
        | [] => [[x]]

/-- Rejoin pieces with the separator `sep`; the counterpart of
`sep.join(pieces)`. -/
def joinWithChar (sep : Char) : List (List Char) → List Char
  | [] => []
  | [h] => h
  | h :: t => h ++ sep :: joinWithChar sep t

/-- Parse a character list as a decimal number the way `int(s, 10)`
accepts a plain digit string: `none` unless non-empty and all digits. -/
def digitsToNat? (l : List Char) : Option Nat :=
  if l.isEmpty then none
  else if l.all Char.isDigit then
    some (l.foldl (fun a c => a * 10 + (c.toNat - 48)) 0)
  else none

/-- Python `x or d` for an optional integer `x`: both `None` and `0` are
falsy, so they yield the default `d`. This is the defaulting used in
`pseudoparsed.port or COAP_PORT` and `request.opt.uri_port or COAP_PORT`. -/
def natOr (x : Option Nat) (d : Nat) : Nat :=
  match x with
  | none => d
  | some n => if n = 0 then d else n

/-- The `(hostname-part, port-part)` split that
`urllib.parse.SplitResult._hostinfo` performs on a bare netloc:
drop everything up to the last `@`; if a `[` follows, the host is what
stands before the matching `]` and the port is what follows the first `:`
after it; otherwise the host is what stands before the first `:` and the
port is what follows it. -/
def netlocHostinfo (netloc : String) : List Char × List Char :=
  let hostinfo := (splitOnChar '@' netloc.data).getLastD netloc.data
  match splitOnChar '[' hostinfo with
  | _ :: b :: bs =>
      let bracketed := joinWithChar '[' (b :: bs)
      match splitOnChar ']' bracketed with
      | h :: rest =>
          let afterBracket := joinWithChar ']' rest
          match splitOnChar ':' afterBracket with
          | _ :: p :: ps => (h, joinWithChar ':' (p :: ps))
          | _ => (h, [])
      | [] => ([], [])
  | _ =>
      match splitOnChar ':' hostinfo with
      | h :: p :: ps => (h, joinWithChar ':' (p :: ps))
      | _ => (hostinfo, [])

/-- `urllib.parse.SplitResult.hostname` on a bare netloc: the host part of
the netloc, lower-cased, or `None` when it is empty.  Lowercasing uses
Lean's ASCII-only `Char.toLower`, which agrees with Python's
`str.lower()` exactly on ASCII characters; statements that quantify over
arbitrary netlocs therefore carry an `asciiNetloc` hypothesis scoping them
to that faithful fragment. -/
def netlocHostname (netloc : String) : Option String :=
  let h := (netlocHostinfo netloc).1
  if h.isEmpty then none else some (h.map Char.toLower).asString

/-- The netlocs on which this embedding's lowercasing coincides with
Python's: every character is ASCII. -/
def asciiNetloc (netloc : String) : Prop :=
  ∀ ch ∈ netloc.data, ch.toNat < 128

instance (netloc : String) : Decidable (asciiNetloc netloc) := by
  unfold asciiNetloc; infer_instance

/-- `urllib.parse.SplitResult.port` on a bare netloc: `None` when the port
part is empty; a plain digit string in range `0..65535` parses to its
value; anything else raises `ValueError` (modelled as `.error`) — a
non-numeric port part raises on every Python this module runs on (the
bare `int(port, 10)` on 3.4/3.5, the explicit re-raise on 3.6+), and an
out-of-range value raises on 3.6+ (3.4/3.5 returned `None` there; the
3.6+ behaviour is modelled).  The `int()` tolerance for surrounding
whitespace and, on 3.6+, underscore digit grouping is not modelled, and
the message texts are abbreviated. -/
def netlocPort (netloc : String) : Except String (Option Nat) :=
  let p := (netlocHostinfo netloc).2
  if p.isEmpty then .ok none
  else
    match digitsToNat? p with
    | some n =>
        if n ≤ 65535 then .ok (some n)
        else .error "Port out of range 0-65535"
    | none => .error "Port could not be cast to integer value"

/-- A Python exception relevant to this module's control flow. -/
inductive PyError
  | valueError (msg : String)
  | attributeError
  deriving DecidableEq, Repr

/-- Lifecycle stage of a `_Connection` (`self._stage`).  `initial` stands
for the Python string `"initializing"`, `shuttingDown` for
`"shutting down"`. -/
inductive Stage
  | initial
  | active
  | shuttingDown
  | destroyed
  deriving DecidableEq, Repr

/-- The asyncio datagram transport created by
`loop.create_datagram_endpoint(..., remote_addr=sockaddr)`, as seen by a
`_Connection`: the remote socket address it was connected to (the host may
be Python `None` if the caller supplied no host), the datagrams sent
through it, and whether `abort()` has been called.  `getpeername` is taken
to report the address the transport was created with; name resolution is
external to this module. -/
structure Transport where
  peer : Option String × Nat
  sent : List (List Nat)
  aborted : Bool
  deriving DecidableEq, Repr

/-- `transport.sendto(data, None)`: appends the datagram unless the
transport has already been aborted (a closed asyncio transport drops the
datagram). -/
def Transport.sendto (t : Transport) (data : List Nat) : Transport :=
  if t.aborted then t else { t with sent := t.sent ++ [data] }

/-- `transport.abort()`. -/
def Transport.abort (t : Transport) : Transport :=
  { t with aborted := true }

/-- State of a `_Connection` object.  The three `has*Callback` flags record
whether the corresponding attribute (`_ready_callback`,
`_new_message_callback`, `_new_error_callback`) is still present —
`connection_made` and `shutdown` delete them with `del`.  `transport` is
`none` before `connection_made` ran.  `id` models Python object
identity. -/
structure Connection where
  id : Nat
  stage : Stage
  hasReadyCallback : Bool
  hasMsgCallback : Bool
  hasErrCallback : Bool
  transport : Option Transport
  deriving DecidableEq, Repr

/-- `_Connection.__init__`: all three callbacks stored, stage
`"initializing"`, no transport yet. -/
def Connection.new (id : Nat) : Connection :=
  { id := id
    stage := .initial
    hasReadyCallback := true
    hasMsgCallback := true
    hasErrCallback := true
    transport := none }

/-- `_Connection.connection_made`: stores the transport, fires the ready
callback, sets the stage to `"active"` and deletes the ready callback.
When the ready callback was already deleted (a second invocation), the
call raises `AttributeError` after storing the transport and before the
stage assignment, so only the transport changes. -/
def Connection.connection_made (c : Connection) (t : Transport) : Connection :=
  if c.hasReadyCallback then
    { c with transport := some t, stage := .active, hasReadyCallback := false }
  else
    { c with transport := some t }

/-- What a `_Connection` event handler hands to its stored callback
(`self._new_message_callback(self, data)` /
`self._new_error_callback(self, exception)`); the connection itself is the
first argument and is left implicit. -/
inductive ConnEmit
  | message (data : List Nat)
  | errorCb (errno : Int)
  deriving DecidableEq, Repr

/-- `_Connection.datagram_received`: invokes the stored message callback
with `(self, data)`.  When the callback attribute was deleted by
`shutdown`, the handler raises `AttributeError` and no callback fires. -/
def Connection.datagram_received (c : Connection) (data : List Nat) : Option ConnEmit :=
  if c.hasMsgCallback then some (.message data) else none

/-- `_Connection.error_received`: invokes the stored error callback with
`(self, exception)`.  When the callback attribute was deleted by
`shutdown`, the handler raises `AttributeError` and no callback fires. -/
def Connection.error_received (c : Connection) (errno : Int) : Option ConnEmit :=
  if c.hasErrCallback then some (.errorCb errno) else none

/-- `_Connection.connection_lost`: forwards the exception to the error
callback unless the exception is `None` (clean close). -/
def Connection.connection_lost (c : Connection) (exc : Option Int) : Option ConnEmit :=
  match exc with
  | none => none
  | some errno => if c.hasErrCallback then some (.errorCb errno) else none

/-- `_Connection.send`: `self._transport.sendto(data, None)`.  Before
`connection_made` there is no `_transport` attribute, so the call raises
`AttributeError` and changes nothing. -/
def Connection.send (c : Connection) (data : List Nat) : Connection :=
  match c.transport with
  | none => c
  | some t => { c with transport := some (t.sendto data) }

/-- `_Connection.shutdown`: sets stage `"shutting down"`, aborts the
transport, deletes both callback attributes, sets stage `"destroyed"`.
When a step raises (`abort` on a missing transport, or `del` on an
already-deleted callback during a second shutdown), execution stops there
and the stage stays at `"shutting down"`. -/
def Connection.shutdown (c : Connection) : Connection :=
  match c.transport with
  | none => { c with stage := .shuttingDown }
  | some t =>
      if c.hasMsgCallback then
        { c with
            stage := .destroyed
            transport := some t.abort
            hasMsgCallback := false
            hasErrCallback := false }
      else
        { c with stage := .shuttingDown, transport := some t.abort }

/-- State of a `_DatagramSocketpoolSimple6`.  `sockets` is `none` once
`shutdown` has executed `del self._sockets`; any later attribute access
raises `AttributeError`. -/
structure Socketpool where
  sockets : Option (List Connection)
  deriving DecidableEq, Repr

/-- `_DatagramSocketpoolSimple6.__init__`. -/
def Socketpool.init : Socketpool := { sockets := some [] }

/-- `_DatagramSocketpoolSimple6.connect`: creates a fresh `_Connection`
protocol around a new transport connected to `sockaddr`, lets the event
loop run `connection_made` (which fires the ready future awaited by
`yield from ready`), appends the protocol to `self._sockets` and returns
it.  No lookup by address is performed.  A fresh object identity is
assigned; when the registry was already deleted by `shutdown`, the
`append` raises `AttributeError` (returning `none` here). -/
def Socketpool.connect (p : Socketpool) (sockaddr : Option String × Nat) :
    Option (Socketpool × Connection) :=
  match p.sockets with
  | none => none
  | some socks =>
      let t : Transport := { peer := sockaddr, sent := [], aborted := false }
      let c := (Connection.new socks.length).connection_made t
      some ({ sockets := some (socks ++ [c]) }, c)

/-- `_DatagramSocketpoolSimple6.shutdown`: when the registry is non-empty,
awaits `shutdown()` of every member; when it is empty the wait is skipped
entirely (`if self._sockets:`).  Either way `del self._sockets` removes
the registry.  Returns the post-shutdown states of the members; on a pool
whose registry was already deleted, the `if` itself raises
`AttributeError`. -/
def Socketpool.shutdown (p : Socketpool) :
    Except PyError (Socketpool × List Connection) :=
  match p.sockets with
  | none => .error .attributeError
  | some socks => .ok ({ sockets := none }, socks.map Connection.shutdown)

/-- The option fields of an aiocoap `Message` used by this transport
(`request.opt.uri_host`, `request.opt.uri_port`); `none` means the option
is absent. -/
structure Opts where
  uri_host : Option String
  uri_port : Option Nat
  deriving DecidableEq, Repr

/-- The slice of an aiocoap `Message` that `determine_remote` reads. -/
structure Request where
  requested_scheme : Option String
  unresolved_remote : Option String
  opt : Opts
  deriving DecidableEq, Repr

/-- State of a `TransportEndpointSimple6`.  The two callback flags record
whether the engine-supplied `_new_message_callback` /
`_new_error_callback` are still set (they are assigned `None` by
`shutdown`); `log` collects warning-level log lines. -/
structure TransportEndpointSimple6 where
  newMessageCallback : Bool
  newErrorCallback : Bool
  log : List String
  pool : Socketpool
  deriving DecidableEq, Repr

/-- The tail of `determine_remote`:
`return (yield from self._pool.connect((host, port), ...))`, threading the
pool state and surfacing the `AttributeError` of a connect that races a
completed shutdown. -/
def TransportEndpointSimple6.connectTo (ep : TransportEndpointSimple6)
    (host : Option String) (port : Nat) :
    Except PyError (TransportEndpointSimple6 × Option Connection) :=
  match ep.pool.connect (host, port) with
  | none => .error .attributeError
  | some (p2, c) => .ok ({ ep with pool := p2 }, some c)

/-- `TransportEndpointSimple6.determine_remote`.  Returns `none` for a
scheme other than `'coap'`/absent; otherwise takes host and port from the
`unresolved_remote` netloc when that attribute is not `None` (the
`pseudoparsed.port` access can itself raise `ValueError`, which
propagates out of the call), else from the `uri_host`/`uri_port` options
when `uri_host` is truthy, else raises the no-location `ValueError`;
finally connects through the pool. -/
def TransportEndpointSimple6.determine_remote (ep : TransportEndpointSimple6)
    (request : Request) :
    Except PyError (TransportEndpointSimple6 × Option Connection) :=
  if request.requested_scheme ∉ ([some "coap", none] : List (Option String)) then
    .ok (ep, none)
  else
    match request.unresolved_remote with
    | some netloc =>
        match netlocPort netloc with
        | .error msg => .error (.valueError msg)
        | .ok p => ep.connectTo (netlocHostname netloc) (natOr p COAP_PORT)
    | none =>
        if strTruthy request.opt.uri_host then
          ep.connectTo request.opt.uri_host (natOr request.opt.uri_port COAP_PORT)
        else
          .error (.valueError
            "No location found to send message to (neither in .opt.uri_host nor in .remote)")

/-- The decoded content of a protocol message.
Modelled from the spec: the message codec (`Message.decode` in aiocoap
core, outside this module) is external; its output is opaque to this
transport. -/
structure MsgCore where
  payload : List Nat
  deriving DecidableEq, Repr

/-- What `_received_datagram` hands to the engine callbacks: either the
decoded message together with the connection attached as its `remote`
(`self._new_message_callback(message)`), or a socket error forwarded as
`self._new_error_callback(exception.errno, address)`. -/
inductive EngineCallback
  | message (m : MsgCore) (remote : Connection)
  | error (errno : Int) (address : Connection)
  deriving DecidableEq, Repr

/-- `TransportEndpointSimple6._received_datagram`, parameterised over the
external codec `decode` (`Message.decode(datagram, remote=address)`;
`none` models the `error.UnparsableMessage` exception).  On decode failure
one warning is logged and the datagram is dropped; on success the decoded
message is forwarded to the engine's message callback with the originating
connection as its remote.  When that callback was cleared by `shutdown`,
calling `None` raises `TypeError` and nothing is invoked. -/
def TransportEndpointSimple6.received_datagram (ep : TransportEndpointSimple6)
    (decode : List Nat → Option MsgCore) (address : Connection)
    (datagram : List Nat) :
    TransportEndpointSimple6 × Option EngineCallback :=
  match decode datagram with
  | none =>
      ({ ep with
          log := ep.log ++ ["Ignoring unparsable message from " ++ toString address.id] },
       none)
  | some core =>
      if ep.newMessageCallback then (ep, some (.message core address))
      else (ep, none)

/-- `TransportEndpointSimple6._received_exception`: forwards
`(exception.errno, address)` to the engine's error callback; when that
callback was cleared by `shutdown`, calling `None` raises `TypeError` and
nothing is invoked. -/
def TransportEndpointSimple6.received_exception (ep : TransportEndpointSimple6)
    (address : Connection) (errno : Int) : Option EngineCallback :=
  if ep.newErrorCallback then some (.error errno address) else none

/-- `TransportEndpointSimple6.shutdown`: awaits the pool's shutdown, then
sets both engine callback references to `None`.  Returns also the
post-shutdown states of the pool's connections. -/
def TransportEndpointSimple6.shutdown (ep : TransportEndpointSimple6) :
    Except PyError (TransportEndpointSimple6 × List Connection) :=
  match ep.pool.shutdown with
  | .error e => .error e
  | .ok (p2, conns) =>
      .ok ({ ep with pool := p2, newMessageCallback := false, newErrorCallback := false },
           conns)

/-- `_Connection.is_multicast`: always `False`. -/
def Connection.is_multicast (_c : Connection) : Bool := false

/-- `_Connection.port`:
`self._transport.get_extra_info('socket').getpeername()[1]`; `none` models
the `AttributeError` of a connection whose transport is not set yet. -/
def Connection.port (c : Connection) : Option Nat :=
  c.transport.map fun t => t.peer.2

/-- `_Connection.hostinfo`: reads host and port from the socket's peer
name, replaces the port by `None` when it equals `COAP_PORT`, and joins
them with `hostportjoin`.  A connected socket always reports a concrete
peer host, rendered here with `getD` (the `none` host cannot be reported
by `getpeername`). -/
def Connection.hostinfo (c : Connection) : Option String :=
  c.transport.map fun t =>
    let host := t.peer.1.getD ""
    let port := t.peer.2
    hostportjoin host (if port = COAP_PORT then none else some port)

/-- The events the event loop and the endpoint can apply to one
`_Connection` over its lifetime. -/
inductive ConnEvent
  | connectionMade (t : Transport)
  | datagramReceived (data : List Nat)
  | errorReceived (errno : Int)
  | connectionLost (exc : Option Int)
  | send (data : List Nat)
  | shutdown
  deriving DecidableEq, Repr

/-- State transition of a `_Connection` under one event (the callback
emissions of the handlers are modelled separately; the handlers do not
change the connection state). -/
def Connection.step (c : Connection) : ConnEvent → Connection
  | .connectionMade t => c.connection_made t
  | .datagramReceived _ => c
  | .errorReceived _ => c
  | .connectionLost _ => c
  | .send data => c.send data
  | .shutdown => c.shutdown

/-- Run a list of events on a connection, left to right. -/
def Connection.run (c : Connection) (evs : List ConnEvent) : Connection :=
  evs.foldl Connection.step c

/-- How many `shutdown` events a trace contains. -/
def countShutdown : List ConnEvent → Nat
  | [] => 0
  | .shutdown :: evs => countShutdown evs + 1
  | _ :: evs => countShutdown evs

/-- Numeric rank of the lifecycle stages, in lifecycle order. -/
def Stage.rank : Stage → Nat
  | .initial => 0
  | .active => 1
  | .shuttingDown => 2
  | .destroyed => 3

/-- A connection as handed out by `Socketpool.connect`: `connection_made`
has run (stage active, ready callback consumed, transport attached) and
`shutdown` has not (both dispatch callbacks still stored). -/
def Connection.Produced (c : Connection) : Prop :=
  c.stage = .active ∧ c.hasReadyCallback = false ∧ c.hasMsgCallback = true ∧
    c.hasErrCallback = true ∧ c.transport.isSome = true

/-- A connection on which `shutdown` has completed: stage destroyed, both
dispatch callbacks deleted, transport aborted but still attached. -/
def Connection.Finished (c : Connection) : Prop :=
  c.stage = .destroyed ∧ c.hasReadyCallback = false ∧ c.hasMsgCallback = false ∧
    c.hasErrCallback = false ∧ c.transport.isSome = true

instance (c : Connection) : Decidable c.Produced := by
  unfold Connection.Produced; infer_instance

instance (c : Connection) : Decidable c.Finished := by
  unfold Connection.Finished; infer_instance

/-- A freshly constructed endpoint: engine callbacks registered, empty
log, fresh pool. -/
def ep0 : TransportEndpointSimple6 :=
  { newMessageCallback := true
    newErrorCallback := true
    log := []
    pool := Socketpool.init }

/-- The socket address the connection returned by a `determine_remote`
call was connected to, when the call succeeded with a connection. -/
def remotePeerOf (x : Except PyError (TransportEndpointSimple6 × Option Connection)) :
    Option (Option String × Nat) :=
  match x with
  | .ok (_, some c) => c.transport.map Transport.peer
  | _ => none

/-- A request carrying an already-set unresolved remote together with
(to-be-ignored) host/port options. -/
def reqUnresolved : Request :=
  { requested_scheme := some "coap"
    unresolved_remote := some "node1.example:5001"
    opt := ⟨some "ignored.example", some 7⟩ }

/-- A request addressed through the `uri_host` option with no port
option. -/
def reqOptHost : Request :=
  { requested_scheme := some "coap"
    unresolved_remote := none
    opt := ⟨some "node2.example", none⟩ }

/-- A request whose unresolved remote is the empty string: present, but
yielding no hostname. -/
def reqEmptyRemote : Request :=
  { requested_scheme := none
    unresolved_remote := some ""
    opt := ⟨none, none⟩ }

/-- Claim C3: a message whose requested scheme is neither `'coap'` nor
absent makes `determine_remote` return `None` — not an error — with the
endpoint (in particular its pool) unchanged, so no `Connection` is
created. -/
theorem determine_remote_incompatible_scheme (ep : TransportEndpointSimple6)
    (r : Request)
    (h : r.requested_scheme ∉ ([some "coap", none] : List (Option String))) :
    ep.determine_remote r = .ok (ep, none) := by
  unfold TransportEndpointSimple6.determine_remote
  simp [h]

/-- Witness for C3: the scheme `'coaps'` yields `None` and an untouched
endpoint. -/
theorem determine_remote_incompatible_scheme_witness :
    ep0.determine_remote
      { requested_scheme := some "coaps"
        unresolved_remote := some "node1.example:5001"
        opt := ⟨some "node2.example", some 7⟩ } = .ok (ep0, none) :=
  determine_remote_incompatible_scheme ep0 _ (by decide)

/-- Claim C2: with a compatible scheme, an `unresolved_remote` netloc
takes precedence (the option fields are not consulted) and is parsed as
`host[:port]`; otherwise the `uri_host`/`uri_port` options are used; an
unspecified port defaults to `COAP_PORT = 5683`.  Concretely,
`"node1.example:5001"` connects to `("node1.example", 5001)` and option
host `"node2.example"` without a port option connects to port `5683`.
The netloc-universal conjunct is scoped to netlocs on which the embedding
is faithful: ASCII characters (`asciiNetloc`, for the lowercasing) and a
port part that parses without raising (`netlocPort netloc = .ok p`; a
malformed port instead propagates `ValueError`, see
`determine_remote_port_error`). -/
theorem determine_remote_precedence :
    (∀ (ep : TransportEndpointSimple6) (r : Request) (netloc : String) (p : Option Nat),
        (r.requested_scheme = some "coap" ∨ r.requested_scheme = none) →
        r.unresolved_remote = some netloc →
        asciiNetloc netloc →
        netlocPort netloc = .ok p →
        ep.determine_remote r
          = ep.connectTo (netlocHostname netloc) (natOr p COAP_PORT))
    ∧ (∀ (ep : TransportEndpointSimple6) (r : Request),
        (r.requested_scheme = some "coap" ∨ r.requested_scheme = none) →
        r.unresolved_remote = none →
        strTruthy r.opt.uri_host = true →
        ep.determine_remote r
          = ep.connectTo r.opt.uri_host (natOr r.opt.uri_port COAP_PORT))
    ∧ natOr none COAP_PORT = 5683
    ∧ remotePeerOf (ep0.determine_remote reqUnresolved) = some (some "node1.example", 5001)
    ∧ remotePeerOf (ep0.determine_remote reqOptHost) = some (some "node2.example", 5683) := by
  refine ⟨?_, ?_, rfl, by decide, by decide⟩
  · intro ep r netloc p hs hu _hascii hport
    rcases hs with hs | hs <;>
      simp [TransportEndpointSimple6.determine_remote, hs, hu, hport]
  · intro ep r hs hu hh
    rcases hs with hs | hs <;>
      simp [TransportEndpointSimple6.determine_remote, hs, hu, hh]

/-- Witness for C2: the two branch equations instantiated on the concrete
scenario requests. -/
theorem determine_remote_precedence_witness :
    ep0.determine_remote reqUnresolved
      = ep0.connectTo (netlocHostname "node1.example:5001")
          (natOr (some 5001) COAP_PORT)
    ∧ ep0.determine_remote reqOptHost
      = ep0.connectTo reqOptHost.opt.uri_host (natOr reqOptHost.opt.uri_port COAP_PORT) :=
  ⟨determine_remote_precedence.1 ep0 reqUnresolved "node1.example:5001" (some 5001)
      (Or.inl rfl) rfl (by decide) rfl,
   determine_remote_precedence.2.1 ep0 reqOptHost (Or.inl rfl) rfl (by decide)⟩

/-- A malformed port part in `unresolved_remote` propagates the
`SplitResult.port` `ValueError` out of `determine_remote`; the error path
is not short-circuited into a defaulted port. -/
lemma determine_remote_port_error (ep : TransportEndpointSimple6) (r : Request)
    (netloc msg : String)
    (h : r.requested_scheme = some "coap" ∨ r.requested_scheme = none)
    (hu : r.unresolved_remote = some netloc)
    (hport : netlocPort netloc = .error msg) :
    ep.determine_remote r = .error (.valueError msg) := by
  rcases h with h | h <;>
    simp [TransportEndpointSimple6.determine_remote, h, hu, hport]

/-- Concretely, `unresolved_remote = "host:abc"` raises `ValueError`
from the port access instead of connecting. -/
lemma determine_remote_port_error_example :
    ep0.determine_remote
        { requested_scheme := some "coap", unresolved_remote := some "host:abc",
          opt := ⟨none, none⟩ }
      = .error (.valueError "Port could not be cast to integer value") :=
  determine_remote_port_error ep0 _ "host:abc" _ (Or.inl rfl) rfl rfl

/-- Claim C1, counterexample: a request whose unresolved remote is the
empty string yields no host from either source (the parsed hostname is
`None` and no `uri_host` option is set), yet `determine_remote` does not
raise `ValueError`: it proceeds to connect, to `(None, 5683)`. -/
theorem determine_remote_no_host_still_connects :
    netlocHostname "" = none
    ∧ reqEmptyRemote.opt.uri_host = none
    ∧ remotePeerOf (ep0.determine_remote reqEmptyRemote) = some (none, 5683) := by
  decide

/-- Claim C1, amended: with a compatible scheme, `determine_remote` fails
with the distinguished no-location `ValueError` whenever
`unresolved_remote` is absent and the `uri_host` option is absent or
empty.  What the code tests is the presence of `unresolved_remote`, not
whether a host can be derived from it, so a present-but-hostless
unresolved remote does not trigger this error and silently proceeds to
connect (see the counterexample). -/
theorem determine_remote_missing_location (ep : TransportEndpointSimple6) (r : Request)
    (h : r.requested_scheme = some "coap" ∨ r.requested_scheme = none)
    (hu : r.unresolved_remote = none)
    (hh : strTruthy r.opt.uri_host = false) :
    ep.determine_remote r
      = .error (.valueError
          "No location found to send message to (neither in .opt.uri_host nor in .remote)") := by
  rcases h with h | h <;>
    simp [TransportEndpointSimple6.determine_remote, h, hu, hh]

/-- Witness for the amended C1: a request with neither an unresolved
remote nor a host option raises the no-location `ValueError`. -/
theorem determine_remote_missing_location_witness :
    ep0.determine_remote
        { requested_scheme := none, unresolved_remote := none, opt := ⟨none, none⟩ }
      = .error (.valueError
          "No location found to send message to (neither in .opt.uri_host nor in .remote)") :=
  determine_remote_missing_location ep0 _ (Or.inr rfl) rfl rfl

/-- Claim C9: a port of `0` is indistinguishable from an absent port
because the defaulting is Python truthiness (`or COAP_PORT`): a `uri_port`
option of `0` gives the same call as no port option at all, `0` and `None`
both default to `5683`, and concretely both an unresolved remote
`"node1.example:0"` and option port `0` connect to port `5683`. -/
theorem determine_remote_port_zero :
    (∀ (ep : TransportEndpointSimple6) (r : Request),
        (r.requested_scheme = some "coap" ∨ r.requested_scheme = none) →
        r.unresolved_remote = none →
        strTruthy r.opt.uri_host = true →
        r.opt.uri_port = some 0 →
        ep.determine_remote r
          = ep.determine_remote { r with opt := { r.opt with uri_port := none } })
    ∧ (∀ x : Option Nat, (x = some 0 ∨ x = none) → natOr x COAP_PORT = COAP_PORT)
    ∧ remotePeerOf (ep0.determine_remote
        { requested_scheme := some "coap", unresolved_remote := some "node1.example:0",
          opt := ⟨none, none⟩ }) = some (some "node1.example", 5683)
    ∧ remotePeerOf (ep0.determine_remote
        { requested_scheme := some "coap", unresolved_remote := none,
          opt := ⟨some "node2.example", some 0⟩ }) = some (some "node2.example", 5683) := by
  refine ⟨?_, ?_, by decide, by decide⟩
  · intro ep r hs hu hh hp
    rcases hs with hs | hs <;>
      simp [TransportEndpointSimple6.determine_remote, hs, hu, hh, hp, strTruthy, natOr]
  · rintro x (rfl | rfl) <;> rfl

/-- Witness for C9: the uri-port-zero equation instantiated on a concrete
request. -/
theorem determine_remote_port_zero_witness :
    ep0.determine_remote
        { requested_scheme := some "coap", unresolved_remote := none,
          opt := ⟨some "node2.example", some 0⟩ }
      = ep0.determine_remote
        { requested_scheme := some "coap", unresolved_remote := none,
          opt := ⟨some "node2.example", none⟩ } :=
  determine_remote_port_zero.1 ep0 _ (Or.inl rfl) rfl (by decide) rfl

/-- Claim C5: for an active connection, `hostinfo` joins the socket's peer
host and port as `"host:port"`, omitting the port exactly when it equals
the default port `5683` (`COAP_PORT`). -/
theorem hostinfo_omits_default_port (c : Connection) (t : Transport) (h : String)
    (p : Nat) ( _hstage : c.stage = .active) (ht : c.transport = some t)
    (hpeer : t.peer = (some h, p)) :
    c.hostinfo = some (if p = 5683 then h else h ++ ":" ++ toString p) := by
  by_cases hp : p = 5683
  · subst hp
    simp [Connection.hostinfo, ht, hpeer, hostportjoin, COAP_PORT]
  · simp [Connection.hostinfo, ht, hpeer, hostportjoin, COAP_PORT, hp]

/-- Witness for C5: port 5683 is omitted, port 9999 is printed. -/
theorem hostinfo_omits_default_port_witness :
    ((Connection.new 0).connection_made ⟨(some "example.com", 5683), [], false⟩).hostinfo
        = some (if 5683 = 5683 then "example.com" else "example.com" ++ ":" ++ toString 5683)
    ∧ ((Connection.new 1).connection_made ⟨(some "example.com", 9999), [], false⟩).hostinfo
        = some (if 9999 = 5683 then "example.com" else "example.com" ++ ":" ++ toString 9999) :=
  ⟨hostinfo_omits_default_port _ _ "example.com" 5683 rfl rfl rfl,
   hostinfo_omits_default_port _ _ "example.com" 9999 rfl rfl rfl⟩

/-- A concrete codec for witnesses: the empty datagram is unparsable,
anything else decodes to its own bytes. -/
def decodeW : List Nat → Option MsgCore :=
  fun d => if d.isEmpty then none else some ⟨d⟩

/-- A concrete produced connection for witnesses. -/
def connW : Connection :=
  (Connection.new 0).connection_made { peer := (some "h.example", 5683), sent := [], aborted := false }

/-- Claim C4: a datagram the codec reports unparsable makes
`_received_datagram` append exactly one warning to the log and invoke no
engine callback (neither message nor error); a datagram that decodes
successfully is forwarded to the engine's message callback as a message
whose remote is the originating connection. -/
theorem received_datagram_dispatch :
    (∀ (ep : TransportEndpointSimple6) (decode : List Nat → Option MsgCore)
        (address : Connection) (datagram : List Nat),
        decode datagram = none →
        ep.received_datagram decode address datagram
          = ({ ep with
                log := ep.log ++ ["Ignoring unparsable message from " ++ toString address.id] },
             none))
    ∧ (∀ (ep : TransportEndpointSimple6) (decode : List Nat → Option MsgCore)
        (address : Connection) (datagram : List Nat) (core : MsgCore),
        decode datagram = some core →
        ep.newMessageCallback = true →
        ep.received_datagram decode address datagram
          = (ep, some (.message core address))) := by
  constructor
  · intro ep decode address datagram hd
    simp [TransportEndpointSimple6.received_datagram, hd]
  · intro ep decode address datagram core hd hcb
    simp [TransportEndpointSimple6.received_datagram, hd, hcb]

/-- Witness for C4: the empty datagram is dropped with one warning; the
datagram `[1, 2]` is forwarded with `connW` as remote. -/
theorem received_datagram_dispatch_witness :
    ep0.received_datagram decodeW connW []
      = ({ ep0 with
            log := ep0.log ++ ["Ignoring unparsable message from " ++ toString connW.id] },
         none)
    ∧ ep0.received_datagram decodeW connW [1, 2]
      = (ep0, some (.message ⟨[1, 2]⟩ connW)) :=
  ⟨received_datagram_dispatch.1 ep0 decodeW connW [] rfl,
   received_datagram_dispatch.2 ep0 decodeW connW [1, 2] ⟨[1, 2]⟩ rfl rfl⟩

/-- Claim C10: shutting down an endpoint whose pool registry is empty
succeeds: the wait over member shutdowns is skipped (there are none), the
registry is removed, and both engine callback references are cleared. -/
theorem shutdown_empty_pool (ep : TransportEndpointSimple6)
    (h : ep.pool.sockets = some []) :
    ep.shutdown
      = Except.ok ({ ep with
          pool := { sockets := none },
          newMessageCallback := false,
          newErrorCallback := false }, []) := by
  simp [TransportEndpointSimple6.shutdown, Socketpool.shutdown, h]

/-- Witness for C10: a fresh endpoint never handed out a connection; its
shutdown succeeds and clears everything. -/
theorem shutdown_empty_pool_witness :
    ep0.shutdown
      = Except.ok ({ ep0 with
          pool := { sockets := none },
          newMessageCallback := false,
          newErrorCallback := false }, []) :=
  shutdown_empty_pool ep0 rfl

/-- The effect, on a registry of connection objects, of calling `send` on
the object with identity `i`: Python mutates that object in place, so
every slot holding it is updated and every other slot is untouched. -/
def sendViaId (socks : List Connection) (i : Nat) (data : List Nat) : List Connection :=
  socks.map fun c => if c.id = i then c.send data else c

lemma sendViaId_of_absent (socks : List Connection) (i : Nat) (data : List Nat)
    (h : ∀ c ∈ socks, c.id ≠ i) : sendViaId socks i data = socks := by
  induction socks with
  | nil => rfl
  | cons a l ih =>
      have ha : a.id ≠ i := h a (List.mem_cons_self a l)
      have hl : ∀ c ∈ l, c.id ≠ i := fun c hc => h c (List.mem_cons_of_mem a hc)
      simp [sendViaId, ha, ih hl] at *
      exact ih hl

/-- The connection value `_DatagramSocketpoolSimple6.connect` produces
when the registry currently holds `n` members: fresh identity `n`, stage
active (`connection_made` has run), ready callback consumed, both dispatch
callbacks stored, transport connected to `addr`. -/
def connAt (n : Nat) (addr : Option String × Nat) : Connection :=
  { id := n
    stage := .active
    hasReadyCallback := false
    hasMsgCallback := true
    hasErrCallback := true
    transport := some { peer := addr, sent := [], aborted := false } }

lemma connect_result (socks : List Connection) (addr : Option String × Nat) :
    Socketpool.connect { sockets := some socks } addr
      = some ({ sockets := some (socks ++ [connAt socks.length addr]) },
              connAt socks.length addr) := rfl

/-- Claim C7: two `connect` calls on the pool, even with identical socket
addresses, create two distinct connection objects, both appended to the
registry (no deduplication); and sending a datagram through one of them
updates only that object's slot, leaving every other registry member —
in particular the twin connection — unchanged.  The hypothesis `hids` is
the pool invariant that registry members carry the identities
`0..length-1` handed out at their own creation. -/
theorem connect_no_dedup (p p1 p2 : Socketpool) (socks : List Connection)
    (addr : Option String × Nat) (c1 c2 : Connection)
    (hs : p.sockets = some socks)
    (hids : ∀ c ∈ socks, c.id < socks.length)
    (h1 : p.connect addr = some (p1, c1))
    (h2 : p1.connect addr = some (p2, c2)) :
    c1.id ≠ c2.id
    ∧ p2.sockets = some (socks ++ [c1, c2])
    ∧ (∀ data, sendViaId (socks ++ [c1, c2]) c1.id data = socks ++ [c1.send data, c2])
    ∧ (∀ data, sendViaId (socks ++ [c1, c2]) c2.id data = socks ++ [c1, c2.send data]) := by
  obtain ⟨psock⟩ := p
  simp only at hs
  subst hs
  rw [connect_result socks addr] at h1
  simp only [Option.some.injEq, Prod.mk.injEq] at h1
  obtain ⟨hp1, hc1⟩ := h1
  subst hp1
  rw [connect_result (socks ++ [connAt socks.length addr]) addr] at h2
  simp only [Option.some.injEq, Prod.mk.injEq] at h2
  obtain ⟨hp2, hc2⟩ := h2
  subst hc1
  subst hc2
  subst hp2
  have hlen : (socks ++ [connAt socks.length addr]).length = socks.length + 1 := by
    simp
  have hid1 : (connAt socks.length addr).id = socks.length := rfl
  have hid2 : (connAt (socks ++ [connAt socks.length addr]).length addr).id
      = socks.length + 1 := by rw [hlen]; rfl
  refine ⟨?_, ?_, ?_, ?_⟩
  · rw [hid1, hid2]; omega
  · simp
  · intro data
    rw [hid1]
    unfold sendViaId
    rw [show socks ++ [connAt socks.length addr,
          connAt (socks ++ [connAt socks.length addr]).length addr]
        = socks ++ ([connAt socks.length addr]
            ++ [connAt (socks ++ [connAt socks.length addr]).length addr]) by simp,
      List.map_append]
    have habs : ∀ c ∈ socks,
        (if c.id = socks.length then c.send data else c) = c := by
      intro c hc
      have := hids c hc
      simp [Nat.ne_of_lt this]
    rw [List.map_congr_left habs]
    simp [connAt, hlen]
  · intro data
    rw [hid2]
    unfold sendViaId
    rw [show socks ++ [connAt socks.length addr,
          connAt (socks ++ [connAt socks.length addr]).length addr]
        = socks ++ ([connAt socks.length addr]
            ++ [connAt (socks ++ [connAt socks.length addr]).length addr]) by simp,
      List.map_append]
    have habs : ∀ c ∈ socks,
        (if c.id = socks.length + 1 then c.send data else c) = c := by
      intro c hc
      have := hids c hc
      have hne : c.id ≠ socks.length + 1 := by omega
      simp [hne]
    rw [List.map_congr_left habs]
    simp [connAt, hlen]

/-- A concrete socket address for the de-duplication witness. -/
def addrW : Option String × Nat := (some "twin.example", 5683)

/-- Witness for C7: two connects to the very same address on a fresh pool
yield distinct objects, both registered, and each `send` touches only its
own object. -/
theorem connect_no_dedup_witness :
    (connAt 0 addrW).id ≠ (connAt 1 addrW).id
    ∧ (Socketpool.mk (some [connAt 0 addrW, connAt 1 addrW])).sockets
        = some ([] ++ [connAt 0 addrW, connAt 1 addrW])
    ∧ (∀ data, sendViaId ([] ++ [connAt 0 addrW, connAt 1 addrW]) (connAt 0 addrW).id data
        = [] ++ [(connAt 0 addrW).send data, connAt 1 addrW])
    ∧ (∀ data, sendViaId ([] ++ [connAt 0 addrW, connAt 1 addrW]) (connAt 1 addrW).id data
        = [] ++ [connAt 0 addrW, (connAt 1 addrW).send data]) :=
  connect_no_dedup Socketpool.init (Socketpool.mk (some [connAt 0 addrW]))
    (Socketpool.mk (some [connAt 0 addrW, connAt 1 addrW])) [] addrW
    (connAt 0 addrW) (connAt 1 addrW) rfl (by simp) rfl rfl

lemma connectTo_mem (ep ep' : TransportEndpointSimple6) (host : Option String)
    (port : Nat) (c : Connection)
    (h : ep.connectTo host port = .ok (ep', some c)) :
    ∃ socks, ep'.pool.sockets = some socks ∧ c ∈ socks := by
  unfold TransportEndpointSimple6.connectTo at h
  cases hs : ep.pool.connect (host, port) with
  | none => rw [hs] at h; cases h
  | some pc =>
      obtain ⟨p2, cA⟩ := pc
      rw [hs] at h
      simp only [Except.ok.injEq, Prod.mk.injEq, Option.some.injEq] at h
      obtain ⟨hep, hc⟩ := h
      unfold Socketpool.connect at hs
      cases hs0 : ep.pool.sockets with
      | none => rw [hs0] at hs; cases hs
      | some socks0 =>
          rw [hs0] at hs
          simp only [Option.some.injEq, Prod.mk.injEq] at hs
          obtain ⟨hp2, hcA⟩ := hs
          refine ⟨socks0 ++ [c], ?_, by simp⟩
          rw [← hep]
          simp [← hp2, hcA, hc]

/-- Claim C6: (1) every connection handed out by `determine_remote` is in
the pool registry of the endpoint state it returns; (2) the endpoint's
`shutdown` runs `shutdown` on every registry member, removes the registry
and clears both engine callback references; (3) a shut-down connection is
in stage destroyed and none of its inbound handlers (datagram, socket
error, lossy close) can fire a callback any more. -/
theorem endpoint_shutdown_destroys :
    (∀ (ep ep' : TransportEndpointSimple6) (r : Request) (c : Connection),
        ep.determine_remote r = .ok (ep', some c) →
        ∃ socks, ep'.pool.sockets = some socks ∧ c ∈ socks)
    ∧ (∀ (ep : TransportEndpointSimple6) (socks : List Connection),
        ep.pool.sockets = some socks →
        ep.shutdown = Except.ok ({ ep with
            pool := { sockets := none },
            newMessageCallback := false,
            newErrorCallback := false }, socks.map Connection.shutdown))
    ∧ (∀ c : Connection, c.Produced →
        c.shutdown.stage = .destroyed
        ∧ (∀ d, c.shutdown.datagram_received d = none)
        ∧ (∀ e, c.shutdown.error_received e = none)
        ∧ (∀ e, c.shutdown.connection_lost (some e) = none)) := by
  refine ⟨?_, ?_, ?_⟩
  · intro ep ep' r c h
    unfold TransportEndpointSimple6.determine_remote at h
    by_cases hsch : r.requested_scheme ∈ ([some "coap", none] : List (Option String))
    · rw [if_neg (not_not_intro hsch)] at h
      cases hu : r.unresolved_remote with
      | some netloc =>
          rw [hu] at h
          simp only at h
          cases hport : netlocPort netloc with
          | error msg => rw [hport] at h; cases h
          | ok p =>
              rw [hport] at h
              exact connectTo_mem _ _ _ _ _ h
      | none =>
          rw [hu] at h
          by_cases hh : strTruthy r.opt.uri_host
          · simp only [hh, if_true] at h
            exact connectTo_mem _ _ _ _ _ h
          · simp [hh] at h
    · rw [if_pos hsch] at h
      simp at h
  · intro ep socks h
    simp [TransportEndpointSimple6.shutdown, Socketpool.shutdown, h]
  · rintro c ⟨h1, h2, h3, h4, h5⟩
    obtain ⟨t, ht⟩ := Option.isSome_iff_exists.mp h5
    refine ⟨?_, ?_, ?_, ?_⟩ <;>
      simp [Connection.shutdown, ht, h3, Connection.datagram_received,
        Connection.error_received, Connection.connection_lost]

/-- The connection returned by `determine_remote` on `reqOptHost` against
a fresh endpoint. -/
def connA : Connection := connAt 0 (some "node2.example", 5683)

/-- The endpoint state `determine_remote` returns alongside `connA`. -/
def epA : TransportEndpointSimple6 :=
  { ep0 with pool := Socketpool.mk (some [connA]) }

/-- Witness for C6: the concrete endpoint that handed out `connA` shuts
down, destroys `connA`, clears the registry and the callbacks, and
`connA` can no longer dispatch anything. -/
theorem endpoint_shutdown_destroys_witness :
    (∃ socks, epA.pool.sockets = some socks ∧ connA ∈ socks)
    ∧ epA.shutdown = Except.ok ({ epA with
        pool := { sockets := none },
        newMessageCallback := false,
        newErrorCallback := false }, [connA].map Connection.shutdown)
    ∧ (connA.shutdown.stage = .destroyed
       ∧ (∀ d, connA.shutdown.datagram_received d = none)
       ∧ (∀ e, connA.shutdown.error_received e = none)
       ∧ (∀ e, connA.shutdown.connection_lost (some e) = none)) :=
  ⟨endpoint_shutdown_destroys.1 ep0 epA reqOptHost connA rfl,
   endpoint_shutdown_destroys.2.1 epA [connA] rfl,
   endpoint_shutdown_destroys.2.2 connA (by decide)⟩

lemma countShutdown_cons_ne (e : ConnEvent) (evs : List ConnEvent)
    (he : e ≠ .shutdown) : countShutdown (e :: evs) = countShutdown evs := by
  cases e <;> first
    | exact absurd rfl he
    | rfl

lemma countShutdown_append (a b : List ConnEvent) :
    countShutdown (a ++ b) = countShutdown a + countShutdown b := by
  induction a with
  | nil => simp [countShutdown]
  | cons e a ih =>
      by_cases he : e = ConnEvent.shutdown
      · subst he
        have h1 : countShutdown (ConnEvent.shutdown :: (a ++ b))
            = countShutdown (a ++ b) + 1 := rfl
        have h2 : countShutdown (ConnEvent.shutdown :: a) = countShutdown a + 1 := rfl
        rw [List.cons_append, h1, h2, ih]
        omega
      · rw [List.cons_append, countShutdown_cons_ne e _ he,
          countShutdown_cons_ne e _ he, ih]

lemma step_produced (c : Connection) (e : ConnEvent) (hp : c.Produced)
    (he : e ≠ .shutdown) : (c.step e).Produced := by
  obtain ⟨h1, h2, h3, h4, h5⟩ := hp
  obtain ⟨t0, ht0⟩ := Option.isSome_iff_exists.mp h5
  cases e with
  | connectionMade t =>
      simp [Connection.step, Connection.connection_made, h2, Connection.Produced,
        h1, h3, h4]
  | datagramReceived d => exact ⟨h1, h2, h3, h4, h5⟩
  | errorReceived er => exact ⟨h1, h2, h3, h4, h5⟩
  | connectionLost ex => exact ⟨h1, h2, h3, h4, h5⟩
  | send d =>
      simp [Connection.step, Connection.send, ht0, Connection.Produced,
        h1, h2, h3, h4]
  | shutdown => exact absurd rfl he

lemma step_finished (c : Connection) (e : ConnEvent) (hf : c.Finished)
    (he : e ≠ .shutdown) : (c.step e).Finished := by
  obtain ⟨h1, h2, h3, h4, h5⟩ := hf
  obtain ⟨t0, ht0⟩ := Option.isSome_iff_exists.mp h5
  cases e with
  | connectionMade t =>
      simp [Connection.step, Connection.connection_made, h2, Connection.Finished,
        h1, h3, h4]
  | datagramReceived d => exact ⟨h1, h2, h3, h4, h5⟩
  | errorReceived er => exact ⟨h1, h2, h3, h4, h5⟩
  | connectionLost ex => exact ⟨h1, h2, h3, h4, h5⟩
  | send d =>
      simp [Connection.step, Connection.send, ht0, Connection.Finished,
        h1, h2, h3, h4]
  | shutdown => exact absurd rfl he

lemma step_shutdown_of_produced (c : Connection) (hp : c.Produced) :
    (c.step .shutdown).Finished := by
  obtain ⟨h1, h2, h3, h4, h5⟩ := hp
  obtain ⟨t0, ht0⟩ := Option.isSome_iff_exists.mp h5
  simp [Connection.step, Connection.shutdown, ht0, h3, Connection.Finished, h2]

lemma run_of_produced_zero (c : Connection) (evs : List ConnEvent)
    (h : countShutdown evs = 0) (hp : c.Produced) : (c.run evs).Produced := by
  induction evs generalizing c with
  | nil => exact hp
  | cons e evs ih =>
      by_cases he : e = ConnEvent.shutdown
      · subst he
        have h1 : countShutdown (ConnEvent.shutdown :: evs)
            = countShutdown evs + 1 := rfl
        omega
      · rw [countShutdown_cons_ne e evs he] at h
        exact ih (c.step e) h (step_produced c e hp he)

lemma run_of_finished_zero (c : Connection) (evs : List ConnEvent)
    (h : countShutdown evs = 0) (hf : c.Finished) : (c.run evs).Finished := by
  induction evs generalizing c with
  | nil => exact hf
  | cons e evs ih =>
      by_cases he : e = ConnEvent.shutdown
      · subst he
        have h1 : countShutdown (ConnEvent.shutdown :: evs)
            = countShutdown evs + 1 := rfl
        omega
      · rw [countShutdown_cons_ne e evs he] at h
        exact ih (c.step e) h (step_finished c e hf he)

lemma run_of_produced_one (c : Connection) (evs : List ConnEvent)
    (h : countShutdown evs = 1) (hp : c.Produced) : (c.run evs).Finished := by
  induction evs generalizing c with
  | nil => simp [countShutdown] at h
  | cons e evs ih =>
      by_cases he : e = ConnEvent.shutdown
      · subst he
        have h1 : countShutdown (ConnEvent.shutdown :: evs)
            = countShutdown evs + 1 := rfl
        have h0 : countShutdown evs = 0 := by omega
        exact run_of_finished_zero (c.step .shutdown) evs h0
          (step_shutdown_of_produced c hp)
      · rw [countShutdown_cons_ne e evs he] at h
        exact ih (c.step e) h (step_produced c e hp he)

/-- Claim C8: (1) a connection handed out by the pool's `connect` is
already in stage active (construction failure never yields a connection
object); (2) from that state, under any event trace that calls `shutdown`
at most once — calling it twice is outside the documented contract — the
stage only ever reads active or destroyed, never back at initializing;
(3) along any such trace the stage rank never decreases: the lifecycle is
monotone initializing → active → (shutting down →) destroyed. -/
theorem connection_stage_monotone :
    (∀ (p p' : Socketpool) (addr : Option String × Nat) (c : Connection),
        p.connect addr = some (p', c) → c.Produced ∧ c.stage = .active)
    ∧ (∀ (c : Connection) (evs : List ConnEvent), c.Produced →
        countShutdown evs ≤ 1 →
        (c.run evs).stage = .active ∨ (c.run evs).stage = .destroyed)
    ∧ (∀ (c : Connection) (pre post : List ConnEvent), c.Produced →
        countShutdown (pre ++ post) ≤ 1 →
        Stage.rank (c.run pre).stage ≤ Stage.rank (c.run (pre ++ post)).stage) := by
  have hdisj : ∀ (c : Connection) (evs : List ConnEvent), c.Produced →
      countShutdown evs ≤ 1 → (c.run evs).Produced ∨ (c.run evs).Finished := by
    intro c evs hp hc
    rcases Nat.le_one_iff_eq_zero_or_eq_one.mp hc with h0 | h1
    · exact Or.inl (run_of_produced_zero c evs h0 hp)
    · exact Or.inr (run_of_produced_one c evs h1 hp)
  refine ⟨?_, ?_, ?_⟩
  · intro p p' addr c h
    obtain ⟨psock⟩ := p
    cases psock with
    | none => cases h
    | some socks =>
        rw [connect_result socks addr] at h
        simp only [Option.some.injEq, Prod.mk.injEq] at h
        obtain ⟨-, hc⟩ := h
        subst hc
        exact ⟨⟨rfl, rfl, rfl, rfl, rfl⟩, rfl⟩
  · intro c evs hp hc
    rcases hdisj c evs hp hc with h | h
    · exact Or.inl h.1
    · exact Or.inr h.1
  · intro c pre post hp hc
    rw [countShutdown_append] at hc
    have hrun : c.run (pre ++ post) = (c.run pre).run post := by
      simp [Connection.run, List.foldl_append]
    have hpre_le : countShutdown pre ≤ 1 := by omega
    rcases Nat.le_one_iff_eq_zero_or_eq_one.mp hpre_le with h0 | h1
    · have hx : (c.run pre).Produced := run_of_produced_zero c pre h0 hp
      have hpost_le : countShutdown post ≤ 1 := by omega
      rcases hdisj (c.run pre) post hx hpost_le with hy | hy
      · rw [hrun, hx.1, hy.1]
      · rw [hrun, hx.1, hy.1]
        decide
    · have hpost0 : countShutdown post = 0 := by omega
      have hx : (c.run pre).Finished := run_of_produced_one c pre h1 hp
      have hy : ((c.run pre).run post).Finished :=
        run_of_finished_zero (c.run pre) post hpost0 hx
      rw [hrun, hx.1, hy.1]

/-- A concrete produced connection for the lifecycle witness. -/
def connB : Connection := connAt 0 (some "mono.example", 1)

/-- Witness for C8: a pool-produced connection is active; after receiving
a datagram it is still active or destroyed; appending a shutdown never
lowers the stage rank. -/
theorem connection_stage_monotone_witness :
    (connB.Produced ∧ connB.stage = .active)
    ∧ ((connB.run [.datagramReceived [1]]).stage = .active
        ∨ (connB.run [.datagramReceived [1]]).stage = .destroyed)
    ∧ Stage.rank (connB.run [.datagramReceived [1]]).stage
        ≤ Stage.rank (connB.run ([.datagramReceived [1]] ++ [.shutdown])).stage :=
  ⟨connection_stage_monotone.1 Socketpool.init (Socketpool.mk (some [connB]))
      (some "mono.example", 1) connB rfl,
   connection_stage_monotone.2.1 connB [.datagramReceived [1]] (by decide) (by decide),
   connection_stage_monotone.2.2 connB [.datagramReceived [1]] [.shutdown]
      (by decide) (by decide)⟩
